import Mathlib

/-!
Shallow embedding of `script/generate_airdrop_csv.py`.

The script converts a hardcoded list of `(address, amount)` pairs into a CSV
file `airdrop_distribution.csv` (header `address,amount`, one data row per
recipient) and prints a three-line summary (recipient count, human-readable
total with thousands separators, base-unit total).

Modelling notes, checked against the Python semantics:
* Every amount in `airdrop_data` is a Python `int`; for an `int` argument
  `int(amount * (10 ** decimals))` is exact arbitrary-precision integer
  multiplication (the outer `int(...)` is the identity on an `int`), so
  `tokens_to_wei` is embedded over `Int`.
* `csv.writer` with the default dialect uses QUOTE_MINIMAL: a field is quoted
  only when it contains the delimiter, the quote character, or a character of
  the line terminator, with embedded quote characters doubled.  With
  `newline=''` on the file handle the default line terminator `"\r\n"` is
  written verbatim, and each cell is rendered with `str(...)`.
* `open(..., 'w')` truncates the file, so the resulting file content is a
  function of the current run only; this is modelled by `fileAfterRun`,
  which receives (and discards) the prior file content.
* Python's format specifier `:,` on an `int` inserts a `,` between each group
  of three digits, counted from the least significant digit.
-/

namespace AirdropCsv

/-- The default value of the `decimals` parameter of `tokens_to_wei`
(the fixed scaling exponent for AIV, 18). -/
def DECIMALS : Nat := 18

/-- The function `tokens_to_wei(amount, decimals=18)` of the script, on integer amounts:
`int(amount * (10 ** decimals))` is the exact product `amount * 10 ^ decimals`
because `int` multiplication in Python is exact and `int()` is the identity on
an `int`. -/
def tokens_to_wei (amount : Int) (decimals : Nat) : Int :=
  amount * 10 ^ decimals

/-- The hardcoded `airdrop_data` list of `(address, amount_in_tokens)` pairs. -/
def airdrop_data : List (String × Int) :=
  [ ("0x742e8D0aED6e21E2F8daBF7c8D9b3D96aF61f5a4", 1000)
  , ("0x1234567890123456789012345678901234567890", 500)
  , ("0xabcdefabcdefabcdefabcdefabcdefabcdefabcd", 750)
  , ("0x9876543210987654321098765432109876543210", 250)
  , ("0xfedcba0987654321fedcba0987654321fedcba09", 300) ]

/-- QUOTE_MINIMAL test of `csv.writer`: a field is quoted iff it contains the
delimiter `,`, the quote character `"`, or a character of the line terminator
`"\r\n"`. -/
def csvNeedsQuoting (s : String) : Bool :=
  s.data.any (fun c => c = ',' || c = '"' || c = '\r' || c = '\n')

/-- Doubling of embedded quote characters inside a quoted CSV field. -/
def csvEscapeQuotes (s : String) : String :=
  String.join (s.data.map (fun c => if c = '"' then "\"\"" else String.mk [c]))

/-- Rendering of one CSV field under QUOTE_MINIMAL. -/
def csvField (s : String) : String :=
  if csvNeedsQuoting s then "\"" ++ csvEscapeQuotes s ++ "\"" else s

/-- One `writer.writerow(fields)` call: fields joined by the delimiter `,`
(the `"\r\n"` terminator is appended by `fileContent`). -/
def csvRow : List String → String
  | [] => ""
  | [f] => csvField f
  | f :: g :: rest => csvField f ++ "," ++ csvRow (g :: rest)

/-- The data rows written by the `for address, token_amount in airdrop_data`
loop: one row `address,str(tokens_to_wei(token_amount))` per recipient, in
list order. -/
def outputRows (data : List (String × Int)) : List String :=
  data.map (fun r => csvRow [r.1, toString (tokens_to_wei r.2 DECIMALS)])

/-- All lines of the CSV file: the header row `['address', 'amount']` followed
by the data rows. -/
def csvLines (data : List (String × Int)) : List String :=
  csvRow ["address", "amount"] :: outputRows data

/-- The byte content of `airdrop_distribution.csv`: each row followed by the
`csv.writer` line terminator `"\r\n"` (written verbatim since the file is
opened with `newline=''`). -/
def fileContent (data : List (String × Int)) : String :=
  String.join ((csvLines data).map (fun line => line ++ "\r\n"))

/-- The name of the output file opened by `generate_csv`. -/
def outputFileName : String := "airdrop_distribution.csv"

/-- Helper for Python's `:,` format: given the digit characters of a number in
reverse order (least significant first), insert a `,` after every group of
three digits. -/
def groupThreesRev : List Char → List Char
  | a :: b :: c :: d :: rest => a :: b :: c :: ',' :: groupThreesRev (d :: rest)
  | l => l

/-- Python's format `f"{n:,}"` on an `int`: decimal digits with a `,` between
each group of three, counted from the least significant digit, with a leading
`-` for negative numbers. -/
def formatThousands (n : Int) : String :=
  (if n < 0 then "-" else "")
    ++ String.mk ((groupThreesRev (toString n.natAbs).data.reverse).reverse)

/-- The three `print(...)` lines of `generate_csv`, in order: the confirmation
with the recipient count, the human-readable total (`total_tokens`, formatted
with `:,`), and the base-unit total (`total_wei`, computed by converting the
summed human-readable total once). -/
def consoleLines (data : List (String × Int)) : List String :=
  [ "Generated airdrop_distribution.csv with "
      ++ toString data.length ++ " recipients"
  , "Total tokens to distribute: "
      ++ formatThousands ((data.map (fun r => r.2)).sum) ++ " AIV"
  , "Total wei amount: "
      ++ toString (tokens_to_wei ((data.map (fun r => r.2)).sum) DECIMALS) ]

/-- The observable result of one `generate_csv()` run: the content written to
`airdrop_distribution.csv` and the console output lines. -/
structure GenerateResult where
  file : String
  console : List String
deriving DecidableEq

/-- The function `generate_csv()` as a function of the recipient list it reads (the script
reads the global `airdrop_data`): it writes the CSV file and prints the
summary. -/
def generate_csv (data : List (String × Int)) : GenerateResult :=
  ⟨fileContent data, consoleLines data⟩

/-- The state of the output file after one `generate_csv()` run, as a function
of its prior content: `open('airdrop_distribution.csv', 'w')` truncates, so
the prior content is discarded and the result is `fileContent data` alone. -/
def fileAfterRun (data : List (String × Int)) (prior : Option String) : String :=
  match prior with
  | _ => fileContent data

/-!
Float path of `tokens_to_wei`.  When `amount` is a Python `float` (a decimal
amount such as `1.1`), `int(amount * (10 ** decimals))` converts the `int`
`10 ** decimals` to a `float`, multiplies with one IEEE-754 binary64
round-to-nearest-even rounding, and truncates toward zero.  The model below
represents a binary64 value exactly by its mantissa and binary exponent
(value `m * 2 ^ e`) and implements round-to-nearest-even over exact integer
arithmetic; it covers the normal range of binary64, which contains every
value arising here.
-/

/-- Binary exponent search: given positive `n`, `den`, returns the `e` with
`2 ^ e ≤ n / den < 2 ^ (e + 1)` (the accumulator form keeps the recursion
structural in the fuel, which bounds the exponent range of binary64). -/
def floatExpAux : Nat → Nat → Nat → Int → Int
  | 0, _, _, e => e
  | fuel + 1, n, d, e =>
    if n < d then floatExpAux fuel (2 * n) d (e - 1)
    else if 2 * d ≤ n then floatExpAux fuel n (2 * d) (e + 1)
    else e

/-- The exact value of an IEEE-754 binary64 number, as mantissa `m` times
`2 ^ e` (for a nonzero normal value, `2 ^ 52 ≤ |m| < 2 ^ 53`). -/
structure PyFloat where
  m : Int
  e : Int

/-- Round-to-nearest-even conversion of the rational `num / den` to binary64
(the rounding applied by Python to every float literal and every float
arithmetic result): scale into `[2 ^ 52, 2 ^ 53)`, round the scaled value to
the nearest integer with ties to even, and renormalize on mantissa carry. -/
def roundRatToFloat (num : Int) (den : Nat) : PyFloat :=
  if num = 0 then ⟨0, 0⟩
  else
    let n := num.natAbs
    let expo := floatExpAux 4400 n den 0
    let k := expo - 52
    let scaled : Nat × Nat :=
      if 0 ≤ k then (n, den * 2 ^ k.toNat) else (n * 2 ^ (-k).toNat, den)
    let q := scaled.1 / scaled.2
    let r := scaled.1 % scaled.2
    let mabs : Nat :=
      if 2 * r < scaled.2 then q
      else if scaled.2 < 2 * r then q + 1
      else if q % 2 = 0 then q else q + 1
    let norm : Nat × Int := if mabs = 2 ^ 53 then (2 ^ 52, k + 1) else (mabs, k)
    ⟨if num < 0 then -(norm.1 : Int) else (norm.1 : Int), norm.2⟩

/-- The dyadic value `m * 2 ^ e` written as a numerator-denominator pair. -/
def dyadicParts (m : Int) (e : Int) : Int × Nat :=
  if 0 ≤ e then (m * 2 ^ e.toNat, 1) else (m, 2 ^ (-e).toNat)

/-- Python float multiplication: the exact product, rounded once to
binary64. -/
def floatMul (a b : PyFloat) : PyFloat :=
  let p := dyadicParts (a.m * b.m) (a.e + b.e)
  roundRatToFloat p.1 p.2

/-- Python float addition: the exact sum, rounded once to binary64. -/
def floatAdd (a b : PyFloat) : PyFloat :=
  let emin := min a.e b.e
  let s := a.m * 2 ^ (a.e - emin).toNat + b.m * 2 ^ (b.e - emin).toNat
  let p := dyadicParts s emin
  roundRatToFloat p.1 p.2

/-- Python conversion of an `int` to a `float` (rounds to nearest; exact for
`10 ^ 18`, whose significand fits in 53 bits). -/
def floatOfInt (n : Int) : PyFloat := roundRatToFloat n 1

/-- Python `int(f)` on a float: truncation toward zero. -/
def intOfFloat (a : PyFloat) : Int :=
  if 0 ≤ a.e then a.m * 2 ^ a.e.toNat else Int.tdiv a.m (2 ^ (-a.e).toNat)

/-- The function `tokens_to_wei(amount, decimals)` of the script when `amount`
is a Python float: `int(amount * (10 ** decimals))` converts `10 ** decimals`
to float, multiplies with one IEEE rounding, and truncates. -/
def tokens_to_wei_float (amount : PyFloat) (decimals : Nat) : Int :=
  intOfFloat (floatMul amount (floatOfInt (10 ^ decimals)))

/-- Python `sum(...)` over float amounts: a left fold of float addition
starting from the int `0` converted to float. -/
def pySumFloat (l : List PyFloat) : PyFloat := l.foldl floatAdd (floatOfInt 0)

/-- The body of the `writer.writerow` loop for a recipient whose amount is a
Python float: the row `address,str(tokens_to_wei(amount))`, with the float
path of `tokens_to_wei`. -/
def outputRowFloat (addr : String) (amount : PyFloat) : String :=
  csvRow [addr, toString (tokens_to_wei_float amount DECIMALS)]

end AirdropCsv

namespace AirdropCsv

/-- Claim C1: for every non-negative integer amount `a` and non-negative
integer decimals `d`, `tokens_to_wei a d` returns exactly `a * 10 ^ d`. -/
theorem tokens_to_wei_exact (a : Int) (d : Nat) (ha : 0 ≤ a) :
    tokens_to_wei a d = a * 10 ^ d := rfl

/-- Witness for C1 at `a = 7`, `d = 3`. -/
theorem tokens_to_wei_exact_witness :
    (0 : Int) ≤ 7 ∧ tokens_to_wei 7 3 = 7 * 10 ^ 3 :=
  ⟨by decide, tokens_to_wei_exact 7 3 (by decide)⟩

/-- Claim C8: `tokens_to_wei` is additive over non-negative integer amounts:
`tokens_to_wei (a + b) d = tokens_to_wei a d + tokens_to_wei b d`. -/
theorem tokens_to_wei_additive (a b : Int) (d : Nat) (ha : 0 ≤ a) (hb : 0 ≤ b) :
    tokens_to_wei (a + b) d = tokens_to_wei a d + tokens_to_wei b d := by
  simp [tokens_to_wei, add_mul]

/-- Witness for C8 at `a = 2`, `b = 3`, `d = 5`. -/
theorem tokens_to_wei_additive_witness :
    (0 : Int) ≤ 2 ∧ (0 : Int) ≤ 3 ∧
      tokens_to_wei (2 + 3) 5 = tokens_to_wei 2 5 + tokens_to_wei 3 5 :=
  ⟨by decide, by decide, tokens_to_wei_additive 2 3 5 (by decide) (by decide)⟩

/-- Claim C2 (amended to integer amounts): the amount rendered in the CSV data
row of a recipient record `(addr, amt)` with integer amount is exactly
`amt * 10 ^ DECIMALS`, with no rounding loss.  The original claim also covered
exact-decimal amounts; those go through the float path and can lose precision
(see the counterexample at amount `1.1`). -/
theorem output_row_amount_exact (data : List (String × Int)) (addr : String)
    (amt : Int) (i : Nat) (h : data[i]? = some (addr, amt)) :
    (outputRows data)[i]? = some (csvRow [addr, toString (amt * 10 ^ DECIMALS)]) := by
  simp [outputRows, tokens_to_wei, h]

/-- Witness for C2 at the singleton list `[("0xA", 2)]`, `i = 0`. -/
theorem output_row_amount_exact_witness :
    ([(("0xA" : String), (2 : Int))][0]? = some ("0xA", 2)) ∧
      (outputRows [("0xA", 2)])[0]?
        = some (csvRow ["0xA", toString ((2 : Int) * 10 ^ DECIMALS)]) :=
  ⟨rfl, output_row_amount_exact [("0xA", 2)] "0xA" 2 0 rfl⟩

set_option maxRecDepth 40000 in
/-- Claim C2 counterexample: for a recipient record with the exact-decimal
amount `1.1` (the Python float nearest `11/10`), the CSV row written by the
loop body is `0xA,1100000000000000128`, and `1100000000000000128` is not
`(11/10) * 10 ^ 18`: the conversion loses precision on this exact-decimal
input, refuting the claim as stated. -/
theorem output_row_amount_lossy_on_decimal :
    outputRowFloat "0xA" (roundRatToFloat 11 10) = "0xA,1100000000000000128" ∧
      (1100000000000000128 : ℚ) ≠ (11 / 10) * 10 ^ DECIMALS := by
  constructor
  · decide
  · norm_num [DECIMALS]

/-- Claim C3 (amended to integer-amount lists): the base-unit total printed by
`generate_csv` (obtained by converting the summed human-readable total once)
equals the sum over all recipients of the per-row base-unit amounts written to
the CSV.  The original claim covered every recipient list; for decimal (float)
amounts the two computations can disagree (see the counterexample at
`[0.1, 0.2]`). -/
theorem total_wei_eq_sum_of_row_wei (data : List (String × Int)) :
    tokens_to_wei ((data.map (fun r => r.2)).sum) DECIMALS
      = (data.map (fun r => tokens_to_wei r.2 DECIMALS)).sum := by
  induction data with
  | nil => simp [tokens_to_wei]
  | cons hd tl ih => simp [tokens_to_wei, add_mul] at ih ⊢; exact ih

set_option maxRecDepth 80000 in
/-- Claim C3 counterexample: for the recipient list with float amounts
`[0.1, 0.2]`, the printed base-unit total (converting the float sum once) is
`300000000000000064`, while the per-row base-unit amounts written to the CSV
sum to `300000000000000000`: the two computations disagree, refuting the claim
as stated over arbitrary recipient lists. -/
theorem total_wei_mismatch_on_decimal_list :
    tokens_to_wei_float (pySumFloat [roundRatToFloat 1 10, roundRatToFloat 2 10]) DECIMALS
        = 300000000000000064 ∧
      ([roundRatToFloat 1 10, roundRatToFloat 2 10].map
          (fun a => tokens_to_wei_float a DECIMALS)).sum = 300000000000000000 ∧
      (300000000000000064 : Int) ≠ 300000000000000000 := by decide

/-- Claim C5: the CSV written by `generate_csv` for a recipient list of length
`N` has exactly `N + 1` lines: the header `address,amount` followed by one
data row `addr,<base-unit amount>` per recipient. -/
theorem csv_file_shape (data : List (String × Int)) :
    outputFileName = "airdrop_distribution.csv" ∧
    (csvLines data).length = data.length + 1 ∧
    (csvLines data).head? = some "address,amount" ∧
    (csvLines data).tail
      = data.map (fun r => csvRow [r.1, toString (tokens_to_wei r.2 DECIMALS)]) := by
  refine ⟨rfl, ?_, rfl, rfl⟩
  simp [csvLines, outputRows]

/-- Claim C6: the `i`-th data row of the CSV (line `i + 1` of the file, after
the header) is the row of the `i`-th recipient of the input list: row order
matches input order. -/
theorem csv_rows_in_input_order (data : List (String × Int)) (addr : String)
    (amt : Int) (i : Nat) (h : data[i]? = some (addr, amt)) :
    (csvLines data)[i + 1]?
      = some (csvRow [addr, toString (tokens_to_wei amt DECIMALS)]) := by
  simp [csvLines, outputRows, h]

/-- Witness for C6 at a two-element list, `i = 1`. -/
theorem csv_rows_in_input_order_witness :
    ([(("0xA" : String), (2 : Int)), ("0xB", 3)][1]? = some ("0xB", 3)) ∧
      (csvLines [("0xA", 2), ("0xB", 3)])[1 + 1]?
        = some (csvRow ["0xB", toString (tokens_to_wei 3 DECIMALS)]) :=
  ⟨rfl, csv_rows_in_input_order [("0xA", 2), ("0xB", 3)] "0xB" 3 1 rfl⟩

/-- Claim C4: for the two-record input `[(addrA, 1000), (addrB, 500)]` (with
addresses that need no CSV quoting, as every address in the source data), the
run produces exactly the CSV rows `addrA,1000000000000000000000` and
`addrB,500000000000000000000` after the header, prints the human-readable
total `1,500` and the base-unit total `1500000000000000000000`. -/
theorem generate_two_record_scenario (addrA addrB : String)
    (hA : csvNeedsQuoting addrA = false) (hB : csvNeedsQuoting addrB = false) :
    csvLines [(addrA, 1000), (addrB, 500)]
        = [ "address,amount"
          , addrA ++ ",1000000000000000000000"
          , addrB ++ ",500000000000000000000" ] ∧
      (generate_csv [(addrA, 1000), (addrB, 500)]).console
        = [ "Generated airdrop_distribution.csv with 2 recipients"
          , "Total tokens to distribute: 1,500 AIV"
          , "Total wei amount: 1500000000000000000000" ] := by
  have hcA : csvField addrA = addrA := by simp [csvField, hA]
  have hcB : csvField addrB = addrB := by simp [csvField, hB]
  constructor
  · show [ csvRow ["address", "amount"]
         , (csvField addrA ++ ",") ++ csvField (toString (tokens_to_wei 1000 DECIMALS))
         , (csvField addrB ++ ",") ++ csvField (toString (tokens_to_wei 500 DECIMALS)) ] = _
    rw [hcA, hcB, String.append_assoc, String.append_assoc]
    rfl
  · show consoleLines [(addrA, 1000), (addrB, 500)] = _
    have hconst : consoleLines [(addrA, 1000), (addrB, 500)]
        = consoleLines [("", 1000), ("", 500)] := rfl
    rw [hconst]
    rfl

/-- Witness for C4 at the first two hardcoded addresses of `airdrop_data`. -/
theorem generate_two_record_scenario_witness :
    csvNeedsQuoting "0x742e8D0aED6e21E2F8daBF7c8D9b3D96aF61f5a4" = false ∧
    csvNeedsQuoting "0x1234567890123456789012345678901234567890" = false ∧
    csvLines [ ("0x742e8D0aED6e21E2F8daBF7c8D9b3D96aF61f5a4", 1000)
             , ("0x1234567890123456789012345678901234567890", 500) ]
        = [ "address,amount"
          , "0x742e8D0aED6e21E2F8daBF7c8D9b3D96aF61f5a4"
              ++ ",1000000000000000000000"
          , "0x1234567890123456789012345678901234567890"
              ++ ",500000000000000000000" ] ∧
      (generate_csv [ ("0x742e8D0aED6e21E2F8daBF7c8D9b3D96aF61f5a4", 1000)
                    , ("0x1234567890123456789012345678901234567890", 500) ]).console
        = [ "Generated airdrop_distribution.csv with 2 recipients"
          , "Total tokens to distribute: 1,500 AIV"
          , "Total wei amount: 1500000000000000000000" ] :=
  ⟨by decide, by decide,
    generate_two_record_scenario
      "0x742e8D0aED6e21E2F8daBF7c8D9b3D96aF61f5a4"
      "0x1234567890123456789012345678901234567890" (by decide) (by decide)⟩

/-- Claim C7: running `generate_csv` a second time leaves the output file with
exactly the content a single run produces: the file is opened with mode `'w'`,
which truncates, so the prior content (in particular the content written by
the first run) is fully overwritten, with no duplicate rows and no appended
header. -/
theorem generate_overwrites (data : List (String × Int)) (prior : Option String) :
    fileAfterRun data (some (fileAfterRun data prior)) = fileAfterRun data prior := rfl

/-- Claim C9: `generate_csv` is deterministic: two runs over the same
recipient list produce identical file content and identical console output. -/
theorem generate_deterministic (data : List (String × Int))
    (r₁ r₂ : GenerateResult)
    (h₁ : r₁ = generate_csv data) (h₂ : r₂ = generate_csv data) :
    r₁.file = r₂.file ∧ r₁.console = r₂.console := by
  subst h₁; subst h₂; exact ⟨rfl, rfl⟩

/-- Witness for C9: two runs over the singleton list `[("0xA", 2)]`. -/
theorem generate_deterministic_witness :
    (generate_csv [(("0xA" : String), (2 : Int))]).file
        = (generate_csv [("0xA", 2)]).file ∧
      (generate_csv [(("0xA" : String), (2 : Int))]).console
        = (generate_csv [("0xA", 2)]).console :=
  generate_deterministic [("0xA", 2)] (generate_csv [("0xA", 2)])
    (generate_csv [("0xA", 2)]) rfl rfl

/-- Claim C10: on the empty recipient list, `generate_csv` writes a CSV
containing only the header line `address,amount`, prints a recipient count of
0, a human-readable total of 0 and a base-unit total of 0; and
`tokens_to_wei 0 = 0`. -/
theorem generate_empty_list :
    generate_csv []
      = ⟨"address,amount\r\n",
         [ "Generated airdrop_distribution.csv with 0 recipients"
         , "Total tokens to distribute: 0 AIV"
         , "Total wei amount: 0" ]⟩
      ∧ tokens_to_wei 0 DECIMALS = 0 := by
  refine ⟨?_, by decide⟩
  rfl

end AirdropCsv
